import Mathlib

/-!
# Phase-cutting dimmer: AC wave detector and triac controller

A shallow embedding of `triac_controller.c`, `ac_wave_detector.c` and the start-up part of
`main.cpp`.  The C globals become fields of a state record, every C function becomes a function
on that record, and the result of each call into the Zephyr kernel (semaphores, GPIO, work
queue, clock) is an explicit argument named after the call.

Values of type `uint32_t` are naturals reduced modulo `2 ^ 32` where an operation can wrap.
Values of type `int` are status codes (0 or a negated errno) and their sums are exact.
-/

namespace LightBulb

/-! ## Machine arithmetic -/

/-- Value of an expression of type `uint32_t`: the mathematical value modulo `2 ^ 32`. -/
def u32 (n : Nat) : Nat := n % 2 ^ 32

/-- The cast `(uint32_t)x` of a `double`: the fractional part is discarded.  The values cast by
the controller are never negative, so discarding the fraction is the floor.  (A value that does
not fit 32 bits is undefined in C; it is wrapped here.) -/
def double_to_u32 (x : ℚ) : Nat := u32 (Int.toNat ⌊x⌋)

/-! ## triac_controller.c: constants -/

def LOWEST_BRIGHTNESS_LEVEL : Nat := 1
def HIGHEST_BRIGHTNESS_LEVEL : Nat := 10

def FREQUENCY_OF_AC_SIGNAL : Nat := 120
def NUMBER_OF_BRIGHTNESS_DIVISIONS : Nat := 10
def NUMBER_OF_MS_IN_A_SEC : Nat := 1000
def DUTY_CYCLE : ℚ := 1
def msec_offset_needed : ℚ := 622135 / 100000

def TRIAC_ON_STATE : Int := 1
def TRIAC_OFF_STATE : Int := 0

/-! ## triac_controller.c: state -/

/-- The globals of `triac_controller.c`.

* `triac_port` is `triac.port`; `none` is `NULL`.
* `delay_timer` and `brightness_timer` are the two `k_timer` objects: `some c` when the timer
  has been started with `K_CYC(c)` and has not expired yet, `none` otherwise.
* `gpio_writes` lists, in order, the value of every call `gpio_pin_set_dt(&triac, value)`. -/
structure TriacController where
  triac_port : Option Nat
  number_of_ticks_to_delay : Nat
  number_of_ticks_per_brightness_division : Nat
  triac_brightness_level : Nat
  triac_enabled : Bool
  delay_timer : Option Nat
  brightness_timer : Option Nat
  gpio_writes : List Int
deriving DecidableEq, Repr

/-- The static initialisers of the globals, for a board whose `led0` alias gives `port`. -/
def TriacController.boot (port : Option Nat) : TriacController :=
  { triac_port := port
    number_of_ticks_to_delay := 0
    number_of_ticks_per_brightness_division := 0
    triac_brightness_level := 10
    triac_enabled := false
    delay_timer := none
    brightness_timer := none
    gpio_writes := [] }

/-- No timer is armed: the state the specification calls `IDLE`. -/
def IDLE (s : TriacController) : Prop := s.delay_timer = none ∧ s.brightness_timer = none

instance (s : TriacController) : Decidable (IDLE s) := by
  unfold IDLE; infer_instance

/-! ## triac_controller.c: timer handlers and operations -/

/-- `timer_expired_handler`: expiry function of `brightness_timer`. -/
def timer_expired_handler (s : TriacController) : TriacController :=
  { s with gpio_writes := s.gpio_writes ++ [TRIAC_OFF_STATE] }

/-- The argument of `K_CYC` in `delay_timer_expired_handler`: a product of two `uint32_t`. -/
def onDelayTicks (number_of_ticks_per_brightness_division triac_brightness_level : Nat) : Nat :=
  u32 (number_of_ticks_per_brightness_division * triac_brightness_level)

/-- `delay_timer_expired_handler`: expiry function of `delay_timer`. -/
def delay_timer_expired_handler (s : TriacController) : TriacController :=
  let s := { s with
    brightness_timer :=
      some (onDelayTicks s.number_of_ticks_per_brightness_division s.triac_brightness_level) }
  { s with gpio_writes := s.gpio_writes ++ [TRIAC_ON_STATE] }

/-- `start_triac_on_timer`: the wave notification. -/
def start_triac_on_timer (s : TriacController) : TriacController :=
  if true = s.triac_enabled then
    { s with delay_timer := some s.number_of_ticks_to_delay }
  else s

/-- `change_triac_enabled_state`; `k_sem_take` is the result of
`k_sem_take(&triac_enabled_sem, K_MSEC(100))`. -/
def change_triac_enabled_state (s : TriacController) (enabled_state : Bool)
    (k_sem_take : Int) : TriacController :=
  if 0 = k_sem_take then { s with triac_enabled := enabled_state } else s

/-- `change_triac_brightness_level`; `brightness_level` is the `uint8_t` argument and
`k_sem_take` the result of `k_sem_take(&brightness_level_sem, K_MSEC(100))`. -/
def change_triac_brightness_level (s : TriacController) (brightness_level : Nat)
    (k_sem_take : Int) : TriacController :=
  if LOWEST_BRIGHTNESS_LEVEL ≤ brightness_level ∧ HIGHEST_BRIGHTNESS_LEVEL ≥ brightness_level then
    if 0 = k_sem_take then { s with triac_brightness_level := brightness_level } else s
  else s

/-- Expiry of the one-shot `delay_timer` (period `K_NO_WAIT`): the kernel marks the timer
stopped and calls its expiry function.  Nothing happens when the timer is not armed. -/
def delay_timer_expiry (s : TriacController) : TriacController :=
  match s.delay_timer with
  | none => s
  | some _ => delay_timer_expired_handler { s with delay_timer := none }

/-- Expiry of the one-shot `brightness_timer`. -/
def brightness_timer_expiry (s : TriacController) : TriacController :=
  match s.brightness_timer with
  | none => s
  | some _ => timer_expired_handler { s with brightness_timer := none }

/-- A configuration request made by the application between two events. -/
inductive ConfigRequest where
  | enabled_state (enabled_state : Bool) (k_sem_take : Int)
  | brightness_level (brightness_level : Nat) (k_sem_take : Int)
deriving DecidableEq, Repr

/-- Run one configuration request. -/
def ConfigRequest.run (s : TriacController) : ConfigRequest → TriacController
  | .enabled_state b r => change_triac_enabled_state s b r
  | .brightness_level l r => change_triac_brightness_level s l r

/-- `calculate_time_frame`.  `fl` is the rounding that the platform applies to the exact result
of a `double` operation (the identity when the values are taken as exact rationals), and
`number_of_ticks_per_sec` the `uint32_t` read from `sys_clock_hw_cycles_per_sec()`. -/
def calculate_time_frame (fl : ℚ → ℚ) (number_of_ticks_per_sec : Nat)
    (s : TriacController) : TriacController :=
  let ms_per_brightness_division : ℚ := fl ((NUMBER_OF_MS_IN_A_SEC : ℚ) * 1)
  let ms_per_brightness_division : ℚ :=
    fl (ms_per_brightness_division /
      ((u32 (FREQUENCY_OF_AC_SIGNAL * NUMBER_OF_BRIGHTNESS_DIVISIONS) : Nat) : ℚ))
  let number_of_ticks_per_msec : ℚ := fl (1 * (number_of_ticks_per_sec : ℚ))
  let number_of_ticks_per_msec : ℚ := fl (number_of_ticks_per_msec / (NUMBER_OF_MS_IN_A_SEC : ℚ))
  { s with
    number_of_ticks_to_delay :=
      double_to_u32 (fl (number_of_ticks_per_msec * fl msec_offset_needed))
    number_of_ticks_per_brightness_division :=
      double_to_u32
        (fl (fl (number_of_ticks_per_msec * ms_per_brightness_division) * fl DUTY_CYCLE)) }

/-- `initialize_triac_gpio`.  `ENODEV` is the errno constant of the platform,
`device_is_ready` the result of `device_is_ready(triac.port)` and `gpio_pin_configure_dt` the
result of `gpio_pin_configure_dt(&triac, GPIO_OUTPUT)`.  Returns `err` and the new state. -/
def initialize_triac_gpio (ENODEV : Int) (device_is_ready : Bool) (gpio_pin_configure_dt : Int)
    (s : TriacController) : Int × TriacController :=
  let err : Int := 0
  let (s, err) :=
    if s.triac_port.isSome && !device_is_ready then
      ({ s with triac_port := none }, err + -ENODEV)
    else (s, err)
  if s.triac_port.isSome then
    let err := gpio_pin_configure_dt
    if err ≠ 0 then (err, { s with triac_port := none }) else (err, s)
  else (err, s)

/-- `init_triac_controller`.  `k_sem_init_enabled` and `k_sem_init_brightness` are the results
of the two `k_sem_init` calls; the other arguments are those of `calculate_time_frame` and
`initialize_triac_gpio`.  Returns `err` and the new state. -/
def init_triac_controller (ENODEV : Int) (fl : ℚ → ℚ)
    (k_sem_init_enabled k_sem_init_brightness : Int) (number_of_ticks_per_sec : Nat)
    (device_is_ready : Bool) (gpio_pin_configure_dt : Int)
    (s : TriacController) : Int × TriacController :=
  let err : Int := 0
  let err := err + k_sem_init_enabled
  let err := err + k_sem_init_brightness
  let s := calculate_time_frame fl number_of_ticks_per_sec s
  let r := initialize_triac_gpio ENODEV device_is_ready gpio_pin_configure_dt s
  (err + r.1, r.2)

/-! ## ac_wave_detector.c -/

/-- The globals of `ac_wave_detector.c`.

* `main_ac_wave_detected_callback` is the registered sink (`none` is `NULL`); a sink acts on
  the controller's globals.
* `ac_wave_handler_ready` and `ac_wave_q_started` record `k_work_init` and
  `k_work_queue_start`; `ac_wave_cb_ready` and `ac_wave_cb_added` record `gpio_init_callback`
  and `gpio_add_callback`.
* `ac_wave_handler_pending` tells whether the work item waits in `ac_wave_q`.
* `work_submissions` lists, in order, the result of every call of `k_work_submit_to_queue`,
  and `sink_calls` counts the calls made through `main_ac_wave_detected_callback`. -/
structure AcWaveDetector where
  main_ac_wave_detected_callback : Option (TriacController → TriacController)
  ac_wave_handler_ready : Bool
  ac_wave_q_started : Bool
  ac_wave_cb_ready : Bool
  ac_wave_cb_added : Bool
  ac_wave_handler_pending : Bool
  work_submissions : List Int
  sink_calls : Nat

/-- The static initialisers of the detector's globals. -/
def AcWaveDetector.boot : AcWaveDetector :=
  { main_ac_wave_detected_callback := none
    ac_wave_handler_ready := false
    ac_wave_q_started := false
    ac_wave_cb_ready := false
    ac_wave_cb_added := false
    ac_wave_handler_pending := false
    work_submissions := []
    sink_calls := 0 }

/-- The detector and the controller together. -/
structure Firmware where
  detector : AcWaveDetector
  triac : TriacController

/-- The program state before `main` runs. -/
def Firmware.boot (port : Option Nat) : Firmware :=
  { detector := AcWaveDetector.boot, triac := TriacController.boot port }

/-- `ac_wave_work_handler`: the handler of the work item `ac_wave_handler`. -/
def ac_wave_work_handler (f : Firmware) : Firmware :=
  match f.detector.main_ac_wave_detected_callback with
  | some callback =>
    { detector := { f.detector with sink_calls := f.detector.sink_calls + 1 }
      triac := callback f.triac }
  | none => f

/-- `ac_wave_detected`: the edge interrupt handler.  `gpio_pin_get_dt` is the result of the pin
read and `k_work_submit_to_queue` the result the kernel gives when the work item is submitted:
negative when the item was not queued, `0`, `1` or `2` when it is in the queue afterwards. -/
def ac_wave_detected (f : Firmware) (gpio_pin_get_dt : Int) (k_work_submit_to_queue : Int) :
    Firmware :=
  let val := gpio_pin_get_dt
  if val ≥ 0 then
    let k_work_status := k_work_submit_to_queue
    { f with detector := { f.detector with
        work_submissions := f.detector.work_submissions ++ [k_work_status]
        ac_wave_handler_pending :=
          f.detector.ac_wave_handler_pending || decide (0 ≤ k_work_status) } }
  else f

/-- The thread of `ac_wave_q`: takes the pending work item, if any, and runs its handler. -/
def ac_wave_q_thread (f : Firmware) : Firmware :=
  if f.detector.ac_wave_handler_pending then
    ac_wave_work_handler { f with detector := { f.detector with ac_wave_handler_pending := false } }
  else f

/-- `initialize_ac_detect_gpio`.  `gpio_is_ready_dt`, `gpio_pin_configure_dt` and
`gpio_pin_interrupt_configure_dt` are the results of the three calls.  Returns `err` and the
new state. -/
def initialize_ac_detect_gpio (ENODEV : Int) (gpio_is_ready_dt : Bool)
    (gpio_pin_configure_dt gpio_pin_interrupt_configure_dt : Int)
    (d : AcWaveDetector) : Int × AcWaveDetector :=
  let err : Int := 0
  let err := if !gpio_is_ready_dt then err + -ENODEV else err
  let err := err + gpio_pin_configure_dt
  let err := err + gpio_pin_interrupt_configure_dt
  (err, { d with ac_wave_cb_ready := true })

/-- `init_ac_wave_detector`.  Returns `err` and the new state. -/
def init_ac_wave_detector (ENODEV : Int) (gpio_is_ready_dt : Bool)
    (gpio_pin_configure_dt gpio_pin_interrupt_configure_dt : Int)
    (ac_wave_detected_callback : Option (TriacController → TriacController))
    (d : AcWaveDetector) : Int × AcWaveDetector :=
  let err : Int := 0
  let d := { d with main_ac_wave_detected_callback := ac_wave_detected_callback }
  let r := initialize_ac_detect_gpio ENODEV gpio_is_ready_dt gpio_pin_configure_dt
    gpio_pin_interrupt_configure_dt d
  let err := err + r.1
  let d := r.2
  if 0 = err then
    (err, { d with ac_wave_handler_ready := true, ac_wave_q_started := true })
  else (err, d)

/-- `enable_ac_wave_detector`. -/
def enable_ac_wave_detector (d : AcWaveDetector) : AcWaveDetector :=
  { d with ac_wave_cb_added := true }

/-! ## main.cpp -/

/-- `new_ac_wave_detected`: the sink that `main` registers. -/
def new_ac_wave_detected (s : TriacController) : TriacController :=
  start_triac_on_timer s

/-- The results of the kernel calls made while `main` starts the two modules. -/
structure Startup where
  ENODEV : Int
  fl : ℚ → ℚ
  sense_gpio_is_ready_dt : Bool
  sense_gpio_pin_configure_dt : Int
  sense_gpio_pin_interrupt_configure_dt : Int
  k_sem_init_enabled : Int
  k_sem_init_brightness : Int
  number_of_ticks_per_sec : Nat
  triac_device_is_ready : Bool
  triac_gpio_pin_configure_dt : Int
  k_sem_take_enabled : Int
  k_sem_take_brightness : Int

/-- `main`, up to the call of `k_msleep`: `.error err_c` when `main` gives up and returns
`err_c`, `.ok f` with the state reached otherwise. -/
def main (e : Startup) (f : Firmware) : Except Int Firmware :=
  let r := init_ac_wave_detector e.ENODEV e.sense_gpio_is_ready_dt
    e.sense_gpio_pin_configure_dt e.sense_gpio_pin_interrupt_configure_dt
    (some new_ac_wave_detected) f.detector
  let err_c := r.1
  let f := { f with detector := r.2 }
  if err_c ≠ 0 then .error err_c else
  let r := init_triac_controller e.ENODEV e.fl e.k_sem_init_enabled e.k_sem_init_brightness
    e.number_of_ticks_per_sec e.triac_device_is_ready e.triac_gpio_pin_configure_dt f.triac
  let err_c := r.1
  let f := { f with triac := r.2 }
  if err_c ≠ 0 then .error err_c else
  let f := { f with detector := enable_ac_wave_detector f.detector }
  let f := { f with triac := change_triac_enabled_state f.triac true e.k_sem_take_enabled }
  let f := { f with triac := change_triac_brightness_level f.triac 10 e.k_sem_take_brightness }
  .ok f

/-! ## Assumptions on the platform and the specification's formulas -/

/-- The rounding error of one `double` operation is at most `2 ^ (-53)` of the exact result:
round to nearest without overflow or underflow.  Exact arithmetic (`id`) and `binary64` below
are instances. -/
def DoubleRounding (fl : ℚ → ℚ) : Prop := ∀ x : ℚ, 0 ≤ x → |fl x - x| ≤ x / 2 ^ 53

/-- Rounding of a rational to the nearest integer, ties to the even one. -/
def round_half_even (m : ℚ) : Int :=
  let f := ⌊m⌋
  let r := m - f
  if r < 1 / 2 then f
  else if 1 / 2 < r then f + 1
  else if f % 2 = 0 then f else f + 1

/-- Rounding of a non-negative rational to IEEE 754 binary64 (53 significant bits, round to
nearest, ties to even), with no bound on the exponent: what a `double` operation of the
platform does to its exact result as long as nothing overflows or underflows. -/
def binary64 (x : ℚ) : ℚ :=
  if x ≤ 0 then 0
  else
    let e : Int := Int.log 2 x - 52
    (round_half_even (x / 2 ^ e) : ℚ) * 2 ^ e

/-- Follows the specification's words (4.2, numeric derivation):
`ticksToZeroCrossOffset = round(ticksPerMs * fixedZeroCrossOffsetMs)`, on exact rationals. -/
def spec_ticksToZeroCrossOffset (ticksPerSecond : Nat) : Int :=
  round ((ticksPerSecond : ℚ) / 1000 * (622135 / 100000))

/-- Follows the specification's words (4.2, numeric derivation):
`ticksPerBrightnessDivision = round(ticksPerMs * msPerBrightnessDivision * dutyCycle)`, on
exact rationals. -/
def spec_ticksPerBrightnessDivision (ticksPerSecond : Nat) : Int :=
  round ((ticksPerSecond : ℚ) / 1000 * (1000 / (120 * 10)) * 1)

/-! ## Concrete inputs -/

/-- A start-up in which every kernel call succeeds, on a 32768 Hz clock, except that the
triac's GPIO device is not ready. -/
def Startup.triac_not_ready : Startup :=
  { ENODEV := 19
    fl := binary64
    sense_gpio_is_ready_dt := true
    sense_gpio_pin_configure_dt := 0
    sense_gpio_pin_interrupt_configure_dt := 0
    k_sem_init_enabled := 0
    k_sem_init_brightness := 0
    number_of_ticks_per_sec := 32768
    triac_device_is_ready := false
    triac_gpio_pin_configure_dt := 0
    k_sem_take_enabled := 0
    k_sem_take_brightness := 0 }

/-- A running firmware: `new_ac_wave_detected` registered, the work queue started, the triac
enabled with the timing constants of a 32768 Hz clock. -/
def Firmware.running : Firmware :=
  { detector := { AcWaveDetector.boot with
      main_ac_wave_detected_callback := some new_ac_wave_detected
      ac_wave_handler_ready := true
      ac_wave_q_started := true
      ac_wave_cb_ready := true
      ac_wave_cb_added := true }
    triac := { TriacController.boot (some 0) with
      triac_enabled := true
      number_of_ticks_to_delay := 203
      number_of_ticks_per_brightness_division := 27 } }

/-! ## Lemmas -/

theorem start_triac_on_timer_disabled (s : TriacController) (h : s.triac_enabled = false) :
    start_triac_on_timer s = s := by
  simp [start_triac_on_timer, h]

theorem ConfigRequest.run_delay_timer (s : TriacController) (r : ConfigRequest) :
    (r.run s).delay_timer = s.delay_timer ∧ (r.run s).brightness_timer = s.brightness_timer ∧
      (r.run s).gpio_writes = s.gpio_writes ∧
      (r.run s).number_of_ticks_per_brightness_division =
        s.number_of_ticks_per_brightness_division := by
  cases r with
  | enabled_state b k =>
    simp only [ConfigRequest.run, change_triac_enabled_state]
    split <;> simp
  | brightness_level l k =>
    simp only [ConfigRequest.run, change_triac_brightness_level]
    split
    · split <;> simp
    · simp

theorem foldl_run_frame (reqs : List ConfigRequest) (s : TriacController) :
    (reqs.foldl ConfigRequest.run s).delay_timer = s.delay_timer ∧
      (reqs.foldl ConfigRequest.run s).brightness_timer = s.brightness_timer ∧
      (reqs.foldl ConfigRequest.run s).gpio_writes = s.gpio_writes ∧
      (reqs.foldl ConfigRequest.run s).number_of_ticks_per_brightness_division =
        s.number_of_ticks_per_brightness_division := by
  induction reqs generalizing s with
  | nil => simp
  | cons r rest ih =>
    obtain ⟨h1, h2, h3, h4⟩ := ih (r.run s)
    obtain ⟨g1, g2, g3, g4⟩ := ConfigRequest.run_delay_timer s r
    simp only [List.foldl_cons]
    exact ⟨h1.trans g1, h2.trans g2, h3.trans g3, h4.trans g4⟩

theorem double_to_u32_natCast_div (m n : Nat) (h : m / n < 2 ^ 32) :
    double_to_u32 ((m : ℚ) / (n : ℚ)) = m / n := by
  unfold double_to_u32 u32
  rw [Int.floor_toNat, Rat.natFloor_natCast_div_natCast, Nat.mod_eq_of_lt h]

theorem calculate_time_frame_exact (number_of_ticks_per_sec : Nat)
    (h : number_of_ticks_per_sec < 2 ^ 32) (s : TriacController) :
    (calculate_time_frame id number_of_ticks_per_sec s).number_of_ticks_to_delay =
        number_of_ticks_per_sec * 622135 / 100000000 ∧
      (calculate_time_frame id number_of_ticks_per_sec s).number_of_ticks_per_brightness_division =
        number_of_ticks_per_sec / 1200 := by
  constructor
  · have e : (id (id (1 * (number_of_ticks_per_sec : ℚ)) / ((NUMBER_OF_MS_IN_A_SEC : Nat) : ℚ)) *
        id msec_offset_needed) =
        ((number_of_ticks_per_sec * 622135 : Nat) : ℚ) / ((100000000 : Nat) : ℚ) := by
      simp only [id, NUMBER_OF_MS_IN_A_SEC, msec_offset_needed]
      push_cast
      ring
    show double_to_u32 (id (id (id (1 * (number_of_ticks_per_sec : ℚ)) /
      ((NUMBER_OF_MS_IN_A_SEC : Nat) : ℚ)) * id msec_offset_needed)) = _
    rw [id, e, double_to_u32_natCast_div]
    omega
  · have e : (id (id (id (1 * (number_of_ticks_per_sec : ℚ)) / ((NUMBER_OF_MS_IN_A_SEC : Nat) : ℚ)) *
        id (id (((NUMBER_OF_MS_IN_A_SEC : Nat) : ℚ) * 1) /
          ((u32 (FREQUENCY_OF_AC_SIGNAL * NUMBER_OF_BRIGHTNESS_DIVISIONS) : Nat) : ℚ))) *
        id DUTY_CYCLE) =
        ((number_of_ticks_per_sec : Nat) : ℚ) / ((1200 : Nat) : ℚ) := by
      have hu : u32 (FREQUENCY_OF_AC_SIGNAL * NUMBER_OF_BRIGHTNESS_DIVISIONS) = 1200 := by decide
      simp only [id, NUMBER_OF_MS_IN_A_SEC, DUTY_CYCLE, hu]
      push_cast
      ring
    show double_to_u32 (id (id (id (id (1 * (number_of_ticks_per_sec : ℚ)) /
        ((NUMBER_OF_MS_IN_A_SEC : Nat) : ℚ)) *
        id (id (((NUMBER_OF_MS_IN_A_SEC : Nat) : ℚ) * 1) /
          ((u32 (FREQUENCY_OF_AC_SIGNAL * NUMBER_OF_BRIGHTNESS_DIVISIONS) : Nat) : ℚ))) *
        id DUTY_CYCLE)) = _
    rw [id, e, double_to_u32_natCast_div]
    omega

theorem DoubleRounding.exact : DoubleRounding id := by
  intro x hx
  rw [id_eq, sub_self, abs_zero]
  positivity

theorem DoubleRounding.le_of_le {fl : ℚ → ℚ} (hfl : DoubleRounding fl) {x b c : ℚ}
    (hx : 0 ≤ x) (hxb : x ≤ b) (hb : b * (1 + 1 / 2 ^ 53) ≤ c) : fl x ≤ c := by
  have h := (abs_le.mp (hfl x hx)).2
  have h2 : x * (1 + 1 / 2 ^ 53) ≤ b * (1 + 1 / 2 ^ 53) :=
    mul_le_mul_of_nonneg_right hxb (by norm_num)
  linarith

theorem DoubleRounding.ge_of_ge {fl : ℚ → ℚ} (hfl : DoubleRounding fl) {x a c : ℚ}
    (hax : a ≤ x) (hx : 0 ≤ x) (ha : c ≤ a * (1 - 1 / 2 ^ 53)) : c ≤ fl x := by
  have h := (abs_le.mp (hfl x hx)).1
  have h2 : a * (1 - 1 / 2 ^ 53) ≤ x * (1 - 1 / 2 ^ 53) :=
    mul_le_mul_of_nonneg_right hax (by norm_num)
  linarith

theorem DoubleRounding.nonneg {fl : ℚ → ℚ} (hfl : DoubleRounding fl) {x : ℚ}
    (hx : 0 ≤ x) : 0 ≤ fl x :=
  hfl.ge_of_ge (le_refl x) hx (by
    have : 0 ≤ x * (1 - 1 / 2 ^ 53) := mul_nonneg hx (by norm_num)
    exact this)

theorem DoubleRounding.between {fl : ℚ → ℚ} (hfl : DoubleRounding fl) {x a b c d : ℚ}
    (ha : 0 ≤ a) (hax : a ≤ x) (hxb : x ≤ b) (hc : c ≤ a * (1 - 1 / 2 ^ 53))
    (hd : b * (1 + 1 / 2 ^ 53) ≤ d) : c ≤ fl x ∧ fl x ≤ d :=
  ⟨hfl.ge_of_ge hax (le_trans ha hax) hc, hfl.le_of_le (le_trans ha hax) hxb hd⟩

theorem round_half_even_abs (m : ℚ) : |(round_half_even m : ℚ) - m| ≤ 1 / 2 := by
  have h1 := Int.floor_le m
  have h2 := Int.lt_floor_add_one m
  unfold round_half_even
  simp only
  rw [abs_le]
  split_ifs with ha hb hc
  · constructor <;> linarith
  · push_cast; constructor <;> linarith
  · have : m - ⌊m⌋ = 1 / 2 := le_antisymm (not_lt.mp hb) (not_lt.mp ha)
    constructor <;> linarith
  · have : m - ⌊m⌋ = 1 / 2 := le_antisymm (not_lt.mp hb) (not_lt.mp ha)
    push_cast; constructor <;> linarith

theorem binary64_rounding : DoubleRounding binary64 := by
  intro x hx
  unfold binary64
  split_ifs with h0
  · have : x = 0 := le_antisymm h0 hx
    subst this
    simp
  · have hpos : 0 < x := lt_of_not_le h0
    have hlog : ((2 : Nat) : ℚ) ^ Int.log 2 x ≤ x := Int.zpow_log_le_self (by norm_num) hpos
    simp only
    set e : Int := Int.log 2 x - 52 with he
    have hpe : (0 : ℚ) < 2 ^ e := by positivity
    have hr := round_half_even_abs (x / 2 ^ e)
    have hfac : (round_half_even (x / 2 ^ e) : ℚ) * 2 ^ e - x =
        ((round_half_even (x / 2 ^ e) : ℚ) - x / 2 ^ e) * 2 ^ e := by
      field_simp
    rw [hfac, abs_mul, abs_of_pos hpe]
    have hle : (2 : ℚ) ^ e * 2 ^ (52 : Int) ≤ x := by
      rw [← zpow_add₀ (by norm_num : (2 : ℚ) ≠ 0)]
      have : e + 52 = Int.log 2 x := by omega
      rw [this]
      exact_mod_cast hlog
    calc |(round_half_even (x / 2 ^ e) : ℚ) - x / 2 ^ e| * 2 ^ e ≤ 1 / 2 * 2 ^ e :=
          mul_le_mul_of_nonneg_right hr hpe.le
      _ = (2 : ℚ) ^ e * 2 ^ (52 : Int) / 2 ^ 53 := by norm_num; ring
      _ ≤ x / 2 ^ 53 := by
          apply div_le_div_of_nonneg_right hle
          positivity

theorem double_to_u32_le {x : ℚ} {n : Nat} (hx : x < (n : ℚ) + 1) : double_to_u32 x ≤ n := by
  unfold double_to_u32 u32
  refine le_trans (Nat.mod_le _ _) ?_
  have h1 : ⌊x⌋ < (n : ℤ) + 1 := by
    have := Int.floor_le x
    have h2 : ((⌊x⌋ : ℤ) : ℚ) < ((n : ℤ) : ℚ) + 1 := by push_cast; linarith
    exact_mod_cast h2
  omega

theorem double_to_u32_eq {x : ℚ} {n : Nat} (hn : n < 2 ^ 32) (hlo : (n : ℚ) ≤ x)
    (hhi : x < (n : ℚ) + 1) : double_to_u32 x = n := by
  unfold double_to_u32 u32
  have h1 : ⌊x⌋ = (n : ℤ) := by
    rw [Int.floor_eq_iff]
    push_cast
    exact ⟨hlo, hhi⟩
  rw [h1, Int.toNat_natCast, Nat.mod_eq_of_lt hn]

/-- An upper bound of `number_of_ticks_per_brightness_division` for a 32-bit tick rate, under
any rounding of the `double` operations. -/
theorem ticks_per_division_le {fl : ℚ → ℚ} (hfl : DoubleRounding fl)
    (number_of_ticks_per_sec : Nat) (h : number_of_ticks_per_sec < 2 ^ 32)
    (s : TriacController) :
    (calculate_time_frame fl number_of_ticks_per_sec s).number_of_ticks_per_brightness_division
      ≤ 9000000 := by
  have ht : (number_of_ticks_per_sec : ℚ) ≤ 4294967296 := by
    have : number_of_ticks_per_sec ≤ 4294967296 := by omega
    exact_mod_cast this
  have ht0 : (0 : ℚ) ≤ (number_of_ticks_per_sec : ℚ) := Nat.cast_nonneg _
  -- number_of_ticks_per_msec
  have a1 : fl (1 * (number_of_ticks_per_sec : ℚ)) ≤ 4300000000 :=
    hfl.le_of_le (b := 4294967296) (by linarith) (by linarith) (by norm_num)
  have a1n : 0 ≤ fl (1 * (number_of_ticks_per_sec : ℚ)) := hfl.nonneg (by linarith)
  have a2 : fl (fl (1 * (number_of_ticks_per_sec : ℚ)) / ((NUMBER_OF_MS_IN_A_SEC : Nat) : ℚ))
      ≤ 4310000 := by
    refine hfl.le_of_le (b := 4300000) ?_ ?_ (by norm_num)
    · simp only [NUMBER_OF_MS_IN_A_SEC]; positivity
    · simp only [NUMBER_OF_MS_IN_A_SEC]; push_cast; linarith
  have a2n : 0 ≤ fl (fl (1 * (number_of_ticks_per_sec : ℚ)) /
      ((NUMBER_OF_MS_IN_A_SEC : Nat) : ℚ)) := by
    refine hfl.nonneg ?_
    simp only [NUMBER_OF_MS_IN_A_SEC]; positivity
  -- ms_per_brightness_division
  have hu : u32 (FREQUENCY_OF_AC_SIGNAL * NUMBER_OF_BRIGHTNESS_DIVISIONS) = 1200 := by decide
  have m1 : fl (((NUMBER_OF_MS_IN_A_SEC : Nat) : ℚ) * 1) ≤ 1001 :=
    hfl.le_of_le (b := 1000) (by simp [NUMBER_OF_MS_IN_A_SEC])
      (by simp [NUMBER_OF_MS_IN_A_SEC]) (by norm_num)
  have m1n : 0 ≤ fl (((NUMBER_OF_MS_IN_A_SEC : Nat) : ℚ) * 1) :=
    hfl.nonneg (by simp [NUMBER_OF_MS_IN_A_SEC])
  have m2 : fl (fl (((NUMBER_OF_MS_IN_A_SEC : Nat) : ℚ) * 1) /
      ((u32 (FREQUENCY_OF_AC_SIGNAL * NUMBER_OF_BRIGHTNESS_DIVISIONS) : Nat) : ℚ)) ≤ 1 := by
    rw [hu]
    refine hfl.le_of_le (b := 1001 / 1200) ?_ ?_ (by norm_num)
    · positivity
    · push_cast; linarith
  have m2n : 0 ≤ fl (fl (((NUMBER_OF_MS_IN_A_SEC : Nat) : ℚ) * 1) /
      ((u32 (FREQUENCY_OF_AC_SIGNAL * NUMBER_OF_BRIGHTNESS_DIVISIONS) : Nat) : ℚ)) := by
    refine hfl.nonneg ?_
    positivity
  -- the product
  set tpm := fl (fl (1 * (number_of_ticks_per_sec : ℚ)) / ((NUMBER_OF_MS_IN_A_SEC : Nat) : ℚ))
    with htpm
  set mpd := fl (fl (((NUMBER_OF_MS_IN_A_SEC : Nat) : ℚ) * 1) /
      ((u32 (FREQUENCY_OF_AC_SIGNAL * NUMBER_OF_BRIGHTNESS_DIVISIONS) : Nat) : ℚ)) with hmpd
  have p1 : fl (tpm * mpd) ≤ 4320000 := by
    refine hfl.le_of_le (b := 4310000) (mul_nonneg a2n m2n) ?_ (by norm_num)
    calc tpm * mpd ≤ 4310000 * 1 := mul_le_mul a2 m2 m2n (by norm_num)
      _ = 4310000 := by norm_num
  have p1n : 0 ≤ fl (tpm * mpd) := hfl.nonneg (mul_nonneg a2n m2n)
  have d1 : fl DUTY_CYCLE ≤ 2 :=
    hfl.le_of_le (b := 1) (by simp [DUTY_CYCLE]) (by simp [DUTY_CYCLE]) (by norm_num)
  have d1n : 0 ≤ fl DUTY_CYCLE := hfl.nonneg (by simp [DUTY_CYCLE])
  have q1 : fl (fl (tpm * mpd) * fl DUTY_CYCLE) ≤ 9000000 := by
    refine hfl.le_of_le (b := 8640000) (mul_nonneg p1n d1n) ?_ (by norm_num)
    calc fl (tpm * mpd) * fl DUTY_CYCLE ≤ 4320000 * 2 := mul_le_mul p1 d1 d1n (by norm_num)
      _ = 8640000 := by norm_num
  show double_to_u32 (fl (fl (tpm * mpd) * fl DUTY_CYCLE)) ≤ 9000000
  exact double_to_u32_le (by push_cast; linarith)

/-- At 32768 ticks per second `number_of_ticks_per_brightness_division` is 27 under any
rounding of the `double` operations. -/
theorem ticks_per_division_32768 {fl : ℚ → ℚ} (hfl : DoubleRounding fl) (s : TriacController) :
    (calculate_time_frame fl 32768 s).number_of_ticks_per_brightness_division = 27 := by
  have hu : u32 (FREQUENCY_OF_AC_SIGNAL * NUMBER_OF_BRIGHTNESS_DIVISIONS) = 1200 := by decide
  have hk : ((NUMBER_OF_MS_IN_A_SEC : Nat) : ℚ) = 1000 := by simp [NUMBER_OF_MS_IN_A_SEC]
  have a1 : 32767 ≤ fl (1 * ((32768 : Nat) : ℚ)) ∧ fl (1 * ((32768 : Nat) : ℚ)) ≤ 32769 :=
    hfl.between (a := 32768) (b := 32768) (by norm_num) (by norm_num) (by norm_num)
      (by norm_num) (by norm_num)
  have a2 : 3276 / 100 ≤ fl (fl (1 * ((32768 : Nat) : ℚ)) / ((NUMBER_OF_MS_IN_A_SEC : Nat) : ℚ)) ∧
      fl (fl (1 * ((32768 : Nat) : ℚ)) / ((NUMBER_OF_MS_IN_A_SEC : Nat) : ℚ)) ≤ 3277 / 100 := by
    rw [hk]
    refine hfl.between (a := 32767 / 1000) (b := 32769 / 1000) (by norm_num) ?_ ?_
      (by norm_num) (by norm_num)
    · exact (div_le_div_iff_of_pos_right (by norm_num)).mpr a1.1
    · exact (div_le_div_iff_of_pos_right (by norm_num)).mpr a1.2
  have m1 : 999 ≤ fl (((NUMBER_OF_MS_IN_A_SEC : Nat) : ℚ) * 1) ∧
      fl (((NUMBER_OF_MS_IN_A_SEC : Nat) : ℚ) * 1) ≤ 1001 := by
    rw [hk]
    exact hfl.between (a := 1000) (b := 1000) (by norm_num) (by norm_num) (by norm_num)
      (by norm_num) (by norm_num)
  have m2 : 8324 / 10000 ≤ fl (fl (((NUMBER_OF_MS_IN_A_SEC : Nat) : ℚ) * 1) /
        ((u32 (FREQUENCY_OF_AC_SIGNAL * NUMBER_OF_BRIGHTNESS_DIVISIONS) : Nat) : ℚ)) ∧
      fl (fl (((NUMBER_OF_MS_IN_A_SEC : Nat) : ℚ) * 1) /
        ((u32 (FREQUENCY_OF_AC_SIGNAL * NUMBER_OF_BRIGHTNESS_DIVISIONS) : Nat) : ℚ)) ≤
        8342 / 10000 := by
    rw [hu]
    refine hfl.between (a := 999 / 1200) (b := 1001 / 1200) (by norm_num) ?_ ?_
      (by norm_num) (by norm_num)
    · push_cast; exact (div_le_div_iff_of_pos_right (by norm_num)).mpr m1.1
    · push_cast; exact (div_le_div_iff_of_pos_right (by norm_num)).mpr m1.2
  set tpm := fl (fl (1 * ((32768 : Nat) : ℚ)) / ((NUMBER_OF_MS_IN_A_SEC : Nat) : ℚ)) with htpm
  set mpd := fl (fl (((NUMBER_OF_MS_IN_A_SEC : Nat) : ℚ) * 1) /
      ((u32 (FREQUENCY_OF_AC_SIGNAL * NUMBER_OF_BRIGHTNESS_DIVISIONS) : Nat) : ℚ)) with hmpd
  have p1 : 2726 / 100 ≤ fl (tpm * mpd) ∧ fl (tpm * mpd) ≤ 2734 / 100 := by
    refine hfl.between (a := 3276 / 100 * (8324 / 10000)) (b := 3277 / 100 * (8342 / 10000))
      (by norm_num) ?_ ?_ (by norm_num) (by norm_num)
    · exact mul_le_mul a2.1 m2.1 (by norm_num) (le_trans (by norm_num) a2.1)
    · exact mul_le_mul a2.2 m2.2 (le_trans (by norm_num) m2.1) (by norm_num)
  have d1 : 999 / 1000 ≤ fl DUTY_CYCLE ∧ fl DUTY_CYCLE ≤ 1001 / 1000 := by
    have hd : DUTY_CYCLE = 1 := rfl
    rw [hd]
    exact hfl.between (a := 1) (b := 1) (by norm_num) (by norm_num) (by norm_num)
      (by norm_num) (by norm_num)
  have q1 : 27 ≤ fl (fl (tpm * mpd) * fl DUTY_CYCLE) ∧
      fl (fl (tpm * mpd) * fl DUTY_CYCLE) ≤ 2750 / 100 := by
    refine hfl.between (a := 2726 / 100 * (999 / 1000)) (b := 2734 / 100 * (1001 / 1000))
      (by norm_num) ?_ ?_ (by norm_num) (by norm_num)
    · exact mul_le_mul p1.1 d1.1 (by norm_num) (le_trans (by norm_num) p1.1)
    · exact mul_le_mul p1.2 d1.2 (le_trans (by norm_num) d1.1) (by norm_num)
  show double_to_u32 (fl (fl (tpm * mpd) * fl DUTY_CYCLE)) = 27
  exact double_to_u32_eq (by norm_num) (by push_cast; exact q1.1) (by push_cast; linarith [q1.2])

theorem initialize_triac_gpio_cases (ENODEV : Int) (device_is_ready : Bool)
    (gpio_pin_configure_dt : Int) (s : TriacController) :
    initialize_triac_gpio ENODEV device_is_ready gpio_pin_configure_dt s =
      if s.triac_port = none then (0, s)
      else if device_is_ready = false then (-ENODEV, { s with triac_port := none })
      else if gpio_pin_configure_dt ≠ 0 then
        (gpio_pin_configure_dt, { s with triac_port := none })
      else (0, s) := by
  unfold initialize_triac_gpio
  obtain ⟨port, d, t, l, e, dt, bt, w⟩ := s
  cases port with
  | none => simp
  | some p =>
    cases device_is_ready with
    | false => simp
    | true =>
      by_cases hc : gpio_pin_configure_dt = 0
      · simp [hc]
      · simp [hc]

theorem init_triac_controller_cases (ENODEV : Int) (fl : ℚ → ℚ) (number_of_ticks_per_sec : Nat)
    (device_is_ready : Bool) (gpio_pin_configure_dt : Int) (s : TriacController) :
    ((init_triac_controller ENODEV fl 0 0 number_of_ticks_per_sec device_is_ready
        gpio_pin_configure_dt s).1 =
      if s.triac_port = none then 0
      else if device_is_ready = false then -ENODEV
      else gpio_pin_configure_dt) ∧
    ((init_triac_controller ENODEV fl 0 0 number_of_ticks_per_sec device_is_ready
        gpio_pin_configure_dt s).2.triac_port =
      if device_is_ready = false ∨ gpio_pin_configure_dt ≠ 0 then none else s.triac_port) := by
  have hp : (calculate_time_frame fl number_of_ticks_per_sec s).triac_port = s.triac_port := rfl
  unfold init_triac_controller
  simp only [initialize_triac_gpio_cases, hp]
  cases hs : s.triac_port with
  | none => simp [hp, hs]
  | some p =>
    cases device_is_ready with
    | false => simp
    | true =>
      by_cases hc : gpio_pin_configure_dt = 0
      · simp [hc, hp, hs]
      · simp [hc]

theorem ac_wave_detected_failed (f : Firmware) (val status : Int) (hval : 0 ≤ val)
    (hstatus : status < 0) :
    ac_wave_detected f val status =
      { f with detector := { f.detector with
          work_submissions := f.detector.work_submissions ++ [status] } } := by
  have hn : ¬ 0 ≤ status := by omega
  simp [ac_wave_detected, hval, hn]

theorem ac_wave_detected_queued (f : Firmware) (val status : Int) (hval : 0 ≤ val)
    (hstatus : 0 ≤ status) :
    ac_wave_detected f val status =
      { f with detector := { f.detector with
          work_submissions := f.detector.work_submissions ++ [status]
          ac_wave_handler_pending := true } } := by
  simp [ac_wave_detected, hval, hstatus]

/-! ## The claims -/

/-- C1. For every controller state and every 8-bit level outside [1,10] (0 and 11..255),
`change_triac_brightness_level` leaves the whole controller state unchanged, so in particular
`triac_brightness_level`, `triac_enabled` and both timing constants, whatever the result
`k_sem_take` of the attempt to take the brightness guard would be. -/
theorem change_triac_brightness_level_out_of_range (s : TriacController) (level : Nat)
    (k_sem_take : Int) (h8 : level < 256) (hout : level < 1 ∨ 10 < level) :
    change_triac_brightness_level s level k_sem_take = s ∧
      (change_triac_brightness_level s level k_sem_take).triac_brightness_level =
        s.triac_brightness_level ∧
      (change_triac_brightness_level s level k_sem_take).triac_enabled = s.triac_enabled ∧
      (change_triac_brightness_level s level k_sem_take).number_of_ticks_to_delay =
        s.number_of_ticks_to_delay ∧
      (change_triac_brightness_level s level k_sem_take).number_of_ticks_per_brightness_division =
        s.number_of_ticks_per_brightness_division := by
  have hs : change_triac_brightness_level s level k_sem_take = s := by
    unfold change_triac_brightness_level LOWEST_BRIGHTNESS_LEVEL HIGHEST_BRIGHTNESS_LEVEL
    rw [if_neg]
    omega
  simp [hs]

/-- Witness of C1: level 200 with the guard taken, on the boot state. -/
theorem change_triac_brightness_level_out_of_range_witness :
    change_triac_brightness_level (TriacController.boot (some 0)) 200 0 =
      TriacController.boot (some 0) :=
  (change_triac_brightness_level_out_of_range (TriacController.boot (some 0)) 200 0
    (by decide) (by decide)).1

/-- C2. From an idle state, once `change_triac_enabled_state(false)` has committed (the guard
was taken: `k_sem_take` returned 0), any number `n` of wave notifications leaves both timers
unarmed and adds no triac write: the controller stays `IDLE`. -/
theorem disabled_waves_stay_idle (s : TriacController) (n : Nat) (hidle : IDLE s) :
    IDLE (start_triac_on_timer^[n] (change_triac_enabled_state s false 0)) ∧
      (start_triac_on_timer^[n] (change_triac_enabled_state s false 0)).delay_timer = none ∧
      (start_triac_on_timer^[n] (change_triac_enabled_state s false 0)).brightness_timer = none ∧
      (start_triac_on_timer^[n] (change_triac_enabled_state s false 0)).gpio_writes =
        s.gpio_writes := by
  have hfix : ∀ t : TriacController, t.triac_enabled = false →
      start_triac_on_timer^[n] t = t := by
    intro t ht
    exact Function.iterate_fixed (start_triac_on_timer_disabled t ht) n
  have hoff : (change_triac_enabled_state s false 0).triac_enabled = false := by
    simp [change_triac_enabled_state]
  rw [hfix _ hoff]
  obtain ⟨hd, hb⟩ := hidle
  simp [change_triac_enabled_state, IDLE, hd, hb]

/-- Witness of C2: three wave notifications after disabling a controller that was enabled. -/
theorem disabled_waves_stay_idle_witness :
    IDLE (start_triac_on_timer^[3] (change_triac_enabled_state
      { TriacController.boot (some 0) with triac_enabled := true } false 0)) :=
  (disabled_waves_stay_idle { TriacController.boot (some 0) with triac_enabled := true } 3
    (by decide)).1

/-- C3. One wave notification on an enabled, idle controller arms the delay timer for
`number_of_ticks_to_delay`; whatever configuration requests `reqs` follow before that timer
expires (among them `change_triac_enabled_state(false)`), the timer stays armed; on its expiry
the brightness timer is armed for the `uint32_t` product
`number_of_ticks_per_brightness_division * L`, with `L` the brightness level at that moment
(the plain product whenever it fits 32 bits), and the triac is written ON; on the brightness
timer's expiry the triac is written OFF and the controller is idle again.  The writes added are
exactly `[ON, OFF]`. -/
theorem single_wave_single_pulse (s : TriacController) (reqs : List ConfigRequest)
    (hen : s.triac_enabled = true) (hidle : IDLE s) :
    (start_triac_on_timer s).delay_timer = some s.number_of_ticks_to_delay ∧
    (start_triac_on_timer s).brightness_timer = none ∧
    (start_triac_on_timer s).gpio_writes = s.gpio_writes ∧
    (reqs.foldl ConfigRequest.run (start_triac_on_timer s)).delay_timer =
      some s.number_of_ticks_to_delay ∧
    (delay_timer_expiry (reqs.foldl ConfigRequest.run (start_triac_on_timer s))).delay_timer =
      none ∧
    (delay_timer_expiry (reqs.foldl ConfigRequest.run (start_triac_on_timer s))).brightness_timer =
      some (u32 (s.number_of_ticks_per_brightness_division *
        (reqs.foldl ConfigRequest.run (start_triac_on_timer s)).triac_brightness_level)) ∧
    (s.number_of_ticks_per_brightness_division *
        (reqs.foldl ConfigRequest.run (start_triac_on_timer s)).triac_brightness_level < 2 ^ 32 →
      (delay_timer_expiry
        (reqs.foldl ConfigRequest.run (start_triac_on_timer s))).brightness_timer =
      some (s.number_of_ticks_per_brightness_division *
        (reqs.foldl ConfigRequest.run (start_triac_on_timer s)).triac_brightness_level)) ∧
    (delay_timer_expiry (reqs.foldl ConfigRequest.run (start_triac_on_timer s))).gpio_writes =
      s.gpio_writes ++ [TRIAC_ON_STATE] ∧
    (brightness_timer_expiry (delay_timer_expiry
      (reqs.foldl ConfigRequest.run (start_triac_on_timer s)))).gpio_writes =
      s.gpio_writes ++ [TRIAC_ON_STATE, TRIAC_OFF_STATE] ∧
    IDLE (brightness_timer_expiry (delay_timer_expiry
      (reqs.foldl ConfigRequest.run (start_triac_on_timer s)))) := by
  obtain ⟨hd, hb⟩ := hidle
  have h1 : start_triac_on_timer s = { s with delay_timer := some s.number_of_ticks_to_delay } := by
    simp [start_triac_on_timer, hen]
  obtain ⟨f1, f2, f3, f4⟩ := foldl_run_frame reqs (start_triac_on_timer s)
  generalize reqs.foldl ConfigRequest.run (start_triac_on_timer s) = s2 at f1 f2 f3 f4 ⊢
  rw [h1] at f1 f2 f3 f4 ⊢
  simp only at f1 f2 f3 f4
  refine ⟨rfl, hb, rfl, f1, ?_, ?_, ?_, ?_, ?_, ?_⟩
  case refine_3 =>
    intro hfit
    have hfit2 : s.number_of_ticks_per_brightness_division * s2.triac_brightness_level <
        4294967296 := hfit
    simp [delay_timer_expiry, f1, delay_timer_expired_handler, onDelayTicks, f4, u32,
      Nat.mod_eq_of_lt hfit2]
  all_goals
    simp [delay_timer_expiry, brightness_timer_expiry, f1, delay_timer_expired_handler,
      timer_expired_handler, onDelayTicks, f2, f3, f4, hb, IDLE]

/-- Witness of C3: the controller is disabled and the level lowered from 10 to 3 between the
wave notification and the expiry of the delay timer; the brightness timer is armed for
`27 * 3` and the writes are `[ON, OFF]`. -/
theorem single_wave_single_pulse_witness :
    (delay_timer_expiry ([ConfigRequest.enabled_state false 0,
        ConfigRequest.brightness_level 3 0].foldl ConfigRequest.run
      (start_triac_on_timer
        { TriacController.boot (some 0) with
          triac_enabled := true, number_of_ticks_to_delay := 203,
          number_of_ticks_per_brightness_division := 27 }))).brightness_timer = some 81 ∧
    (brightness_timer_expiry (delay_timer_expiry ([ConfigRequest.enabled_state false 0,
        ConfigRequest.brightness_level 3 0].foldl ConfigRequest.run
      (start_triac_on_timer
        { TriacController.boot (some 0) with
          triac_enabled := true, number_of_ticks_to_delay := 203,
          number_of_ticks_per_brightness_division := 27 })))).gpio_writes =
      [TRIAC_ON_STATE, TRIAC_OFF_STATE] :=
  have h := single_wave_single_pulse
    { TriacController.boot (some 0) with
      triac_enabled := true, number_of_ticks_to_delay := 203,
      number_of_ticks_per_brightness_division := 27 }
    [ConfigRequest.enabled_state false 0, ConfigRequest.brightness_level 3 0] rfl (by decide)
  ⟨h.2.2.2.2.2.1.trans (by decide), h.2.2.2.2.2.2.2.2.1⟩

/-- C4. For every 32-bit tick rate, under any rounding of the `double` operations, and all
levels `1 ≤ a ≤ b ≤ 10`: the on-duration `onDelayTicks`, the 32-bit product of
`number_of_ticks_per_brightness_division` and the level, grows with the level; the value at
level 10 is the largest and the value at level 1 the smallest. -/
theorem onDelayTicks_monotone (fl : ℚ → ℚ) (hfl : DoubleRounding fl)
    (number_of_ticks_per_sec : Nat) (h : number_of_ticks_per_sec < 2 ^ 32)
    (s : TriacController) (a b : Nat) (ha : 1 ≤ a) (hab : a ≤ b) (hb : b ≤ 10) :
    onDelayTicks
        (calculate_time_frame fl number_of_ticks_per_sec s).number_of_ticks_per_brightness_division
        a ≤
      onDelayTicks
        (calculate_time_frame fl number_of_ticks_per_sec s).number_of_ticks_per_brightness_division
        b ∧
    onDelayTicks
        (calculate_time_frame fl number_of_ticks_per_sec s).number_of_ticks_per_brightness_division
        b ≤
      onDelayTicks
        (calculate_time_frame fl number_of_ticks_per_sec s).number_of_ticks_per_brightness_division
        10 ∧
    onDelayTicks
        (calculate_time_frame fl number_of_ticks_per_sec s).number_of_ticks_per_brightness_division
        1 ≤
      onDelayTicks
        (calculate_time_frame fl number_of_ticks_per_sec s).number_of_ticks_per_brightness_division
        a := by
  have hle := ticks_per_division_le hfl number_of_ticks_per_sec h s
  generalize (calculate_time_frame fl number_of_ticks_per_sec
    s).number_of_ticks_per_brightness_division = d at hle ⊢
  have hmod : ∀ l : Nat, l ≤ 10 → onDelayTicks d l = d * l := by
    intro l hl
    unfold onDelayTicks u32
    apply Nat.mod_eq_of_lt
    calc d * l ≤ 9000000 * 10 := Nat.mul_le_mul hle hl
      _ < 2 ^ 32 := by norm_num
  rw [hmod a (by omega), hmod b hb, hmod 10 (le_refl _), hmod 1 (by omega)]
  exact ⟨Nat.mul_le_mul_left d hab, Nat.mul_le_mul_left d hb, Nat.mul_le_mul_left d ha⟩

/-- Witness of C4: binary64 arithmetic at 32768 ticks per second, levels 3 and 7. -/
theorem onDelayTicks_monotone_witness :
    onDelayTicks
        (calculate_time_frame binary64 32768
          (TriacController.boot none)).number_of_ticks_per_brightness_division 3 ≤
      onDelayTicks
        (calculate_time_frame binary64 32768
          (TriacController.boot none)).number_of_ticks_per_brightness_division 7 :=
  (onDelayTicks_monotone binary64 binary64_rounding 32768 (by norm_num)
    (TriacController.boot none) 3 7 (by decide) (by decide) (by decide)).1

/-- C5, counterexample.  At 32768 ticks per second and level 10 (the boot state) the
brightness timer is armed for 270 ticks, not 273: in binary64 arithmetic and also with exact
rationals. -/
theorem on_duration_32768_is_not_273 :
    (delay_timer_expired_handler
        (calculate_time_frame binary64 32768 (TriacController.boot none))).brightness_timer =
      some 270 ∧
    ¬ ((calculate_time_frame binary64 32768
          (TriacController.boot none)).number_of_ticks_per_brightness_division = 27 ∧
        (delay_timer_expired_handler
          (calculate_time_frame binary64 32768 (TriacController.boot none))).brightness_timer =
          some 273) ∧
    ¬ ((calculate_time_frame id 32768
          (TriacController.boot none)).number_of_ticks_per_brightness_division = 27 ∧
        (delay_timer_expired_handler
          (calculate_time_frame id 32768 (TriacController.boot none))).brightness_timer =
          some 273) := by
  have key : ∀ fl : ℚ → ℚ, DoubleRounding fl →
      (delay_timer_expired_handler
        (calculate_time_frame fl 32768 (TriacController.boot none))).brightness_timer =
      some 270 := by
    intro fl hfl
    have e : (delay_timer_expired_handler
        (calculate_time_frame fl 32768 (TriacController.boot none))).brightness_timer =
        some (onDelayTicks (calculate_time_frame fl 32768
          (TriacController.boot none)).number_of_ticks_per_brightness_division 10) := rfl
    rw [e, ticks_per_division_32768 hfl]
    decide
  refine ⟨key _ binary64_rounding, ?_, ?_⟩
  · rintro ⟨-, h273⟩
    rw [key _ binary64_rounding] at h273
    exact absurd h273 (by decide)
  · rintro ⟨-, h273⟩
    rw [key _ DoubleRounding.exact] at h273
    exact absurd h273 (by decide)

/-- C5, amended.  At 32768 ticks per second, under any rounding of the `double` operations,
`calculate_time_frame` sets `number_of_ticks_per_brightness_division` to 27, and at level 10
`delay_timer_expired_handler` arms the brightness timer for `27 * 10 = 270` ticks. -/
theorem on_duration_32768 (fl : ℚ → ℚ) (hfl : DoubleRounding fl) (s : TriacController)
    (hlevel : s.triac_brightness_level = 10) :
    (calculate_time_frame fl 32768 s).number_of_ticks_per_brightness_division = 27 ∧
      (delay_timer_expired_handler (calculate_time_frame fl 32768 s)).brightness_timer =
        some 270 := by
  have h27 := ticks_per_division_32768 hfl s
  refine ⟨h27, ?_⟩
  have e : (delay_timer_expired_handler (calculate_time_frame fl 32768 s)).brightness_timer =
      some (onDelayTicks (calculate_time_frame fl 32768 s).number_of_ticks_per_brightness_division
        s.triac_brightness_level) := rfl
  rw [e, h27, hlevel]
  decide

/-- Witness of C5 (amended): binary64 arithmetic, the boot state (level 10). -/
theorem on_duration_32768_witness :
    (calculate_time_frame binary64 32768
        (TriacController.boot none)).number_of_ticks_per_brightness_division = 27 ∧
      (delay_timer_expired_handler
        (calculate_time_frame binary64 32768 (TriacController.boot none))).brightness_timer =
        some 270 :=
  on_duration_32768 binary64 binary64_rounding (TriacController.boot none) rfl

/-- C6, counterexample.  At 32768 ticks per second, with exact rationals, the offset product
is about 203.86: `calculate_time_frame` stores 203, the nearest integer is 204. -/
theorem ticks_to_delay_32768_is_not_rounded :
    (calculate_time_frame id 32768 (TriacController.boot none)).number_of_ticks_to_delay = 203 ∧
      spec_ticksToZeroCrossOffset 32768 = 204 ∧
      ((calculate_time_frame id 32768 (TriacController.boot none)).number_of_ticks_to_delay : Int)
        ≠ spec_ticksToZeroCrossOffset 32768 := by
  have h1 := (calculate_time_frame_exact 32768 (by norm_num) (TriacController.boot none)).1
  have h2 : spec_ticksToZeroCrossOffset 32768 = 204 := by
    unfold spec_ticksToZeroCrossOffset
    rw [round_eq, Int.floor_eq_iff]
    norm_num
  rw [h1, h2]
  decide

/-- C6, amended.  For every 32-bit tick rate, with exact rationals, `calculate_time_frame`
sets `number_of_ticks_to_delay` to the integer part (floor) of `(ticksPerSecond/1000) * 6.22135`
and `number_of_ticks_per_brightness_division` to the integer part of
`(ticksPerSecond/1000) * (1000/(120*10)) * 1.0`: the fraction is dropped, not rounded.  In
integer terms these are `ticksPerSecond * 622135 / 100000000` and `ticksPerSecond / 1200`. -/
theorem calculate_time_frame_truncates (number_of_ticks_per_sec : Nat)
    (h : number_of_ticks_per_sec < 2 ^ 32) (s : TriacController) :
    ((calculate_time_frame id number_of_ticks_per_sec s).number_of_ticks_to_delay : Int) =
      ⌊(number_of_ticks_per_sec : ℚ) / 1000 * (622135 / 100000)⌋ ∧
    ((calculate_time_frame id number_of_ticks_per_sec s).number_of_ticks_per_brightness_division
        : Int) = ⌊(number_of_ticks_per_sec : ℚ) / 1000 * (1000 / (120 * 10)) * 1⌋ ∧
    (calculate_time_frame id number_of_ticks_per_sec s).number_of_ticks_to_delay =
      number_of_ticks_per_sec * 622135 / 100000000 ∧
    (calculate_time_frame id number_of_ticks_per_sec s).number_of_ticks_per_brightness_division =
      number_of_ticks_per_sec / 1200 := by
  obtain ⟨h1, h2⟩ := calculate_time_frame_exact number_of_ticks_per_sec h s
  refine ⟨?_, ?_, h1, h2⟩
  · rw [h1]
    have e : (number_of_ticks_per_sec : ℚ) / 1000 * (622135 / 100000) =
        ((number_of_ticks_per_sec * 622135 : Nat) : ℚ) / ((100000000 : Nat) : ℚ) := by
      push_cast; ring
    rw [e, Rat.floor_natCast_div_natCast]
    norm_cast
  · rw [h2]
    have e : (number_of_ticks_per_sec : ℚ) / 1000 * (1000 / (120 * 10)) * 1 =
        ((number_of_ticks_per_sec : Nat) : ℚ) / ((1200 : Nat) : ℚ) := by
      push_cast; ring
    rw [e, Rat.floor_natCast_div_natCast]
    norm_cast

/-- Witness of C6 (amended): 32768 ticks per second gives 203 and 27. -/
theorem calculate_time_frame_truncates_witness :
    (calculate_time_frame id 32768 (TriacController.boot none)).number_of_ticks_to_delay = 203 ∧
      (calculate_time_frame id 32768
        (TriacController.boot none)).number_of_ticks_per_brightness_division = 27 :=
  have h := calculate_time_frame_truncates 32768 (by norm_num) (TriacController.boot none)
  ⟨h.2.2.1, h.2.2.2⟩

/-- C7, counterexample.  The triac pin is present but its device is not ready, both guard
initialisations succeed: the pin reference is cleared, yet `init_triac_controller` returns
`-ENODEV = -19`, not 0, and `main` gives up with that code. -/
theorem init_triac_controller_not_ready_fails :
    (init_triac_controller 19 binary64 0 0 32768 false 0 (TriacController.boot (some 0))).2.triac_port
        = none ∧
      (init_triac_controller 19 binary64 0 0 32768 false 0 (TriacController.boot (some 0))).1 = -19 ∧
      ¬ (init_triac_controller 19 binary64 0 0 32768 false 0 (TriacController.boot (some 0))).1 = 0 ∧
      (match main Startup.triac_not_ready (Firmware.boot (some 0)) with
        | .error err_c => err_c = -19
        | .ok _ => False) := by
  refine ⟨?_, ?_, ?_, ?_⟩
  · simp [init_triac_controller, initialize_triac_gpio_cases, calculate_time_frame,
      TriacController.boot]
  · simp [init_triac_controller, initialize_triac_gpio_cases, calculate_time_frame,
      TriacController.boot]
  · simp [init_triac_controller, initialize_triac_gpio_cases, calculate_time_frame,
      TriacController.boot]
  · simp [main, Startup.triac_not_ready, Firmware.boot, init_ac_wave_detector,
      initialize_ac_detect_gpio, init_triac_controller, initialize_triac_gpio_cases,
      calculate_time_frame, TriacController.boot]

/-- C7, amended.  When both guard initialisations succeed (return 0), in each of the three
pin failures the pin reference `triac.port` is cleared after `init_triac_controller`, and the
value returned is: 0 when the triac pin is absent; `-ENODEV` when its device is not ready; the
non-zero result of `gpio_pin_configure_dt` when the configuration fails.  The last two are not
0, and `main`, once the detector is initialised, gives up with any non-zero value that
`init_triac_controller` returns. -/
theorem init_triac_controller_pin_failures (ENODEV : Int) (hENODEV : 0 < ENODEV) (fl : ℚ → ℚ)
    (number_of_ticks_per_sec : Nat) (device_is_ready : Bool) (gpio_pin_configure_dt : Int)
    (s : TriacController) :
    (s.triac_port = none →
      (init_triac_controller ENODEV fl 0 0 number_of_ticks_per_sec device_is_ready
        gpio_pin_configure_dt s).2.triac_port = none ∧
      (init_triac_controller ENODEV fl 0 0 number_of_ticks_per_sec device_is_ready
        gpio_pin_configure_dt s).1 = 0) ∧
    (s.triac_port ≠ none → device_is_ready = false →
      (init_triac_controller ENODEV fl 0 0 number_of_ticks_per_sec device_is_ready
        gpio_pin_configure_dt s).2.triac_port = none ∧
      (init_triac_controller ENODEV fl 0 0 number_of_ticks_per_sec device_is_ready
        gpio_pin_configure_dt s).1 = -ENODEV ∧
      (init_triac_controller ENODEV fl 0 0 number_of_ticks_per_sec device_is_ready
        gpio_pin_configure_dt s).1 ≠ 0) ∧
    (s.triac_port ≠ none → device_is_ready = true → gpio_pin_configure_dt ≠ 0 →
      (init_triac_controller ENODEV fl 0 0 number_of_ticks_per_sec device_is_ready
        gpio_pin_configure_dt s).2.triac_port = none ∧
      (init_triac_controller ENODEV fl 0 0 number_of_ticks_per_sec device_is_ready
        gpio_pin_configure_dt s).1 = gpio_pin_configure_dt ∧
      (init_triac_controller ENODEV fl 0 0 number_of_ticks_per_sec device_is_ready
        gpio_pin_configure_dt s).1 ≠ 0) ∧
    (∀ (e : Startup) (f : Firmware),
      (init_ac_wave_detector e.ENODEV e.sense_gpio_is_ready_dt e.sense_gpio_pin_configure_dt
        e.sense_gpio_pin_interrupt_configure_dt (some new_ac_wave_detected) f.detector).1 = 0 →
      (init_triac_controller e.ENODEV e.fl e.k_sem_init_enabled e.k_sem_init_brightness
        e.number_of_ticks_per_sec e.triac_device_is_ready e.triac_gpio_pin_configure_dt
        f.triac).1 ≠ 0 →
      ∃ err_c, main e f = .error err_c ∧ err_c ≠ 0 ∧
        err_c = (init_triac_controller e.ENODEV e.fl e.k_sem_init_enabled e.k_sem_init_brightness
          e.number_of_ticks_per_sec e.triac_device_is_ready e.triac_gpio_pin_configure_dt
          f.triac).1) := by
  obtain ⟨h1, h2⟩ := init_triac_controller_cases ENODEV fl number_of_ticks_per_sec
    device_is_ready gpio_pin_configure_dt s
  refine ⟨?_, ?_, ?_, ?_⟩
  · intro hp
    rw [h1, h2]
    simp [hp]
  · intro hp hr
    rw [h1, h2]
    simp only [hp, hr, if_false, if_true, true_or]
    exact ⟨trivial, trivial, by omega⟩
  · intro hp hr hc
    rw [h1, h2]
    simp [hp, hr, hc]
  · intro e f hdet htriac
    refine ⟨_, ?_, htriac, rfl⟩
    unfold main
    simp only [hdet, ne_eq, not_true_eq_false, if_false]
    rw [if_pos htriac]

/-- Witness of C7 (amended): `ENODEV = 19`; the device is not ready. -/
theorem init_triac_controller_pin_failures_witness :
    (init_triac_controller 19 binary64 0 0 32768 false 0 (TriacController.boot (some 0))).1 = -19 :=
  ((init_triac_controller_pin_failures 19 (by decide) binary64 32768 false 0
    (TriacController.boot (some 0))).2.1 (by decide) rfl).2.1

/-- C8. When the pin-configure and interrupt-configure calls return 0 or a negative code (and
`ENODEV` is a positive errno), `init_ac_wave_detector` returns 0 exactly when the sense pin is
ready and both configurations succeed; in every other case the sum returned is not 0.  The work
item and the work queue are set up in the all-success case and left untouched otherwise. -/
theorem init_ac_wave_detector_zero_iff (ENODEV : Int) (hENODEV : 0 < ENODEV)
    (gpio_is_ready_dt : Bool) (gpio_pin_configure_dt gpio_pin_interrupt_configure_dt : Int)
    (hconfigure : gpio_pin_configure_dt ≤ 0) (hinterrupt : gpio_pin_interrupt_configure_dt ≤ 0)
    (callback : Option (TriacController → TriacController)) (d : AcWaveDetector) :
    ((init_ac_wave_detector ENODEV gpio_is_ready_dt gpio_pin_configure_dt
        gpio_pin_interrupt_configure_dt callback d).1 = 0 ↔
      (gpio_is_ready_dt = true ∧ gpio_pin_configure_dt = 0 ∧
        gpio_pin_interrupt_configure_dt = 0)) ∧
    ((gpio_is_ready_dt = true ∧ gpio_pin_configure_dt = 0 ∧
        gpio_pin_interrupt_configure_dt = 0) →
      (init_ac_wave_detector ENODEV gpio_is_ready_dt gpio_pin_configure_dt
        gpio_pin_interrupt_configure_dt callback d).2.ac_wave_handler_ready = true ∧
      (init_ac_wave_detector ENODEV gpio_is_ready_dt gpio_pin_configure_dt
        gpio_pin_interrupt_configure_dt callback d).2.ac_wave_q_started = true) ∧
    (¬ (gpio_is_ready_dt = true ∧ gpio_pin_configure_dt = 0 ∧
        gpio_pin_interrupt_configure_dt = 0) →
      (init_ac_wave_detector ENODEV gpio_is_ready_dt gpio_pin_configure_dt
        gpio_pin_interrupt_configure_dt callback d).1 ≠ 0 ∧
      (init_ac_wave_detector ENODEV gpio_is_ready_dt gpio_pin_configure_dt
        gpio_pin_interrupt_configure_dt callback d).2.ac_wave_handler_ready =
        d.ac_wave_handler_ready ∧
      (init_ac_wave_detector ENODEV gpio_is_ready_dt gpio_pin_configure_dt
        gpio_pin_interrupt_configure_dt callback d).2.ac_wave_q_started =
        d.ac_wave_q_started) := by
  have herr : (initialize_ac_detect_gpio ENODEV gpio_is_ready_dt gpio_pin_configure_dt
      gpio_pin_interrupt_configure_dt
      { d with main_ac_wave_detected_callback := callback }).1 = 0 ↔
      (gpio_is_ready_dt = true ∧ gpio_pin_configure_dt = 0 ∧
        gpio_pin_interrupt_configure_dt = 0) := by
    unfold initialize_ac_detect_gpio
    cases gpio_is_ready_dt with
    | false =>
      simp only [Bool.not_false, if_true, Bool.false_eq_true, false_and, iff_false]
      omega
    | true =>
      simp only [Bool.not_true, Bool.false_eq_true, if_false, true_and]
      omega
  unfold init_ac_wave_detector
  by_cases hall : (gpio_is_ready_dt = true ∧ gpio_pin_configure_dt = 0 ∧
      gpio_pin_interrupt_configure_dt = 0)
  · have h0 := herr.mpr hall
    simp only [zero_add, h0, if_true]
    exact ⟨⟨fun _ => hall, fun _ => trivial⟩, fun _ => by simp, fun hn => absurd hall hn⟩
  · have h0 : ¬ (initialize_ac_detect_gpio ENODEV gpio_is_ready_dt gpio_pin_configure_dt
        gpio_pin_interrupt_configure_dt
        { d with main_ac_wave_detected_callback := callback }).1 = 0 := fun h => hall (herr.mp h)
    have h0s : ¬ 0 = (initialize_ac_detect_gpio ENODEV gpio_is_ready_dt gpio_pin_configure_dt
        gpio_pin_interrupt_configure_dt
        { d with main_ac_wave_detected_callback := callback }).1 := fun h => h0 h.symm
    simp only [zero_add, h0s, if_false]
    exact ⟨⟨fun h => absurd h h0, fun h => absurd h hall⟩, fun h => absurd h hall,
      fun _ => ⟨h0, rfl, rfl⟩⟩

/-- Witness of C8: `ENODEV = 19`, pin ready, pin configuration fails with -22. -/
theorem init_ac_wave_detector_zero_iff_witness :
    (init_ac_wave_detector 19 true (-22) 0 (some new_ac_wave_detected) AcWaveDetector.boot).1
        ≠ 0 ∧
      (init_ac_wave_detector 19 true (-22) 0 (some new_ac_wave_detected)
        AcWaveDetector.boot).2.ac_wave_q_started = false :=
  have h := (init_ac_wave_detector_zero_iff 19 (by decide) true (-22) 0 (by decide) (by decide)
    (some new_ac_wave_detected) AcWaveDetector.boot).2.2 (by decide)
  ⟨h.1, h.2.2⟩

/-- C9. (1) The edge handler `ac_wave_detected` never calls the sink: it changes neither the
controller nor the count of sink calls.  (2) It submits the work item exactly when the pin read
is not negative.  (3) The work handler calls the registered sink exactly when it is not null.
(4) An edge whose submission fails (negative status) changes nothing but the record of
submissions: the controller state, hence timers and triac writes, and the queue are as before.
(5) With `new_ac_wave_detected` registered and the triac enabled, a following edge whose
submission succeeds, once the queue thread runs, leaves the controller exactly as without the
failed edge, with the delay timer armed for `number_of_ticks_to_delay`. -/
theorem failed_submission_is_dropped (f : Firmware) (val status val2 status2 : Int) :
    ((ac_wave_detected f val status).triac = f.triac ∧
      (ac_wave_detected f val status).detector.sink_calls = f.detector.sink_calls) ∧
    ((ac_wave_detected f val status).detector.work_submissions =
      if 0 ≤ val then f.detector.work_submissions ++ [status]
      else f.detector.work_submissions) ∧
    ((∀ callback, f.detector.main_ac_wave_detected_callback = some callback →
        (ac_wave_work_handler f).triac = callback f.triac ∧
        (ac_wave_work_handler f).detector.sink_calls = f.detector.sink_calls + 1) ∧
      (f.detector.main_ac_wave_detected_callback = none → ac_wave_work_handler f = f)) ∧
    (0 ≤ val → status < 0 →
      (ac_wave_detected f val status).triac = f.triac ∧
      (ac_wave_detected f val status).detector.ac_wave_handler_pending =
        f.detector.ac_wave_handler_pending ∧
      (ac_wave_q_thread (ac_wave_detected f val status)).triac = (ac_wave_q_thread f).triac) ∧
    (0 ≤ val → status < 0 → 0 ≤ val2 → 0 ≤ status2 →
      f.detector.main_ac_wave_detected_callback = some new_ac_wave_detected →
      f.triac.triac_enabled = true →
      (ac_wave_q_thread (ac_wave_detected (ac_wave_detected f val status) val2 status2)).triac =
        (ac_wave_q_thread (ac_wave_detected f val2 status2)).triac ∧
      (ac_wave_q_thread (ac_wave_detected (ac_wave_detected f val status) val2
        status2)).triac.delay_timer = some f.triac.number_of_ticks_to_delay) := by
  refine ⟨?_, ?_, ⟨?_, ?_⟩, ?_, ?_⟩
  · unfold ac_wave_detected
    by_cases hv : 0 ≤ val <;> simp [hv]
  · unfold ac_wave_detected
    by_cases hv : 0 ≤ val <;> simp [hv]
  · intro callback hcb
    simp [ac_wave_work_handler, hcb]
  · intro hcb
    simp [ac_wave_work_handler, hcb]
  · intro hval hstatus
    rw [ac_wave_detected_failed f val status hval hstatus]
    refine ⟨rfl, rfl, ?_⟩
    unfold ac_wave_q_thread
    cases hp : f.detector.ac_wave_handler_pending with
    | false => simp [hp]
    | true =>
      simp only [hp, if_true]
      unfold ac_wave_work_handler
      cases hc : f.detector.main_ac_wave_detected_callback <;> simp [hc]
  · intro hval hstatus hval2 hstatus2 hcb hen
    rw [ac_wave_detected_failed f val status hval hstatus,
      ac_wave_detected_queued _ val2 status2 hval2 hstatus2,
      ac_wave_detected_queued f val2 status2 hval2 hstatus2]
    simp [ac_wave_q_thread, ac_wave_work_handler, hcb, new_ac_wave_detected,
      start_triac_on_timer, hen]

/-- Witness of C9: a submission that fails with -16, then one that succeeds with 1. -/
theorem failed_submission_is_dropped_witness :
    (ac_wave_q_thread (ac_wave_detected (ac_wave_detected Firmware.running 1 (-16))
      1 1)).triac.delay_timer = some 203 :=
  ((failed_submission_is_dropped Firmware.running 1 (-16) 1 1).2.2.2.2
    (by decide) (by decide) (by decide) (by decide) rfl rfl).2

/-- C10. For every 32-bit tick rate and every level in [1,10], with exact rationals: the
product `number_of_ticks_per_brightness_division * level` does not wrap in 32 bits, it is the
duration for which `delay_timer_expired_handler` arms the brightness timer, and it is at most
`ticksPerSecond / 120` (integer division), the ticks of one AC half-cycle.  Hence, when the next
wave notification comes `P` ticks after this one, with `P` at least a half-cycle, the OFF expiry
(wave + delay + on-duration) is no later than the next ON (next wave + delay). -/
theorem on_window_within_half_cycle (number_of_ticks_per_sec : Nat)
    (h : number_of_ticks_per_sec < 2 ^ 32) (s : TriacController) (level : Nat)
    (hlevel : 1 ≤ level ∧ level ≤ 10) :
    (calculate_time_frame id number_of_ticks_per_sec s).number_of_ticks_per_brightness_division
        * level < 2 ^ 32 ∧
    (delay_timer_expired_handler
        { calculate_time_frame id number_of_ticks_per_sec s with
          triac_brightness_level := level }).brightness_timer =
      some ((calculate_time_frame id number_of_ticks_per_sec
        s).number_of_ticks_per_brightness_division * level) ∧
    (calculate_time_frame id number_of_ticks_per_sec s).number_of_ticks_per_brightness_division
        * level ≤ number_of_ticks_per_sec / FREQUENCY_OF_AC_SIGNAL ∧
    ∀ wave P : Nat, number_of_ticks_per_sec / FREQUENCY_OF_AC_SIGNAL ≤ P →
      wave + (calculate_time_frame id number_of_ticks_per_sec s).number_of_ticks_to_delay +
          onDelayTicks (calculate_time_frame id number_of_ticks_per_sec
            s).number_of_ticks_per_brightness_division level ≤
        wave + P + (calculate_time_frame id number_of_ticks_per_sec s).number_of_ticks_to_delay := by
  have e : (delay_timer_expired_handler
        { calculate_time_frame id number_of_ticks_per_sec s with
          triac_brightness_level := level }).brightness_timer =
      some (onDelayTicks (calculate_time_frame id number_of_ticks_per_sec
        s).number_of_ticks_per_brightness_division level) := rfl
  rw [e]
  obtain ⟨-, h10⟩ := hlevel
  obtain ⟨-, h2⟩ := calculate_time_frame_exact number_of_ticks_per_sec h s
  rw [h2]
  have hhalf : number_of_ticks_per_sec / 1200 * level ≤ number_of_ticks_per_sec / 120 := by
    have hm : number_of_ticks_per_sec / 1200 * level ≤ number_of_ticks_per_sec / 1200 * 10 :=
      Nat.mul_le_mul_left _ h10
    omega
  have hlt : number_of_ticks_per_sec / 1200 * level < 2 ^ 32 := by omega
  have hod : onDelayTicks (number_of_ticks_per_sec / 1200) level =
      number_of_ticks_per_sec / 1200 * level := by
    unfold onDelayTicks u32
    exact Nat.mod_eq_of_lt hlt
  rw [hod]
  refine ⟨hlt, rfl, hhalf, ?_⟩
  intro wave P hP
  have : number_of_ticks_per_sec / FREQUENCY_OF_AC_SIGNAL = number_of_ticks_per_sec / 120 := rfl
  omega

/-- Witness of C10: 32768 ticks per second, level 10: 270 ticks against a half-cycle of 273. -/
theorem on_window_within_half_cycle_witness :
    (calculate_time_frame id 32768
        (TriacController.boot none)).number_of_ticks_per_brightness_division * 10 ≤
      32768 / FREQUENCY_OF_AC_SIGNAL :=
  (on_window_within_half_cycle 32768 (by norm_num) (TriacController.boot none) 10
    (by decide)).2.2.1

end LightBulb
